import Mathlib

/-!
Verification of the `jules-scratch` browser-verification scripts.

Each Python script under `jules-scratch/verification/` is a linear sequence of
Playwright page actions, optionally wrapped in `try`/`except`/`finally`.
We embed the scripts shallowly: an `Act` is one page operation, a `Script`
records the statements before the `try` block (`setup`), the `try` body
(`body`), the `except` handler when present (`onError`), and the `finally`
block (`finalActs`).  A run is driven by an environment `env : Act → Bool`
that says whether each attempted action succeeds (the application under test,
the network and the filesystem decide this at runtime); `runScript` replays
Python's control flow: a failing action raises, aborting the rest of the
current block; an `except` handler swallows the exception; `finally` always
runs; an exception that escapes the module makes the interpreter exit
non-zero (`raised`).
-/

/-- A Playwright locator, as used by the scripts: `get_by_label`,
`get_by_role(role, name=...)`, `get_by_text`, CSS selector strings,
xpath selectors, and locators scoped inside another locator. -/
inductive Locator where
  | label : String → Locator
  | role : String → String → Locator
  | text : String → Locator
  | css : String → Locator
  | xpath : String → Locator
  | sub : Locator → Locator → Locator
deriving DecidableEq

/-- One statement of a verification script.  Timeouts are in milliseconds;
`none` means the Playwright library default is used.  `sleep` is
`time.sleep`, in seconds. -/
inductive Act where
  | launch : Act
  | newContext : Act
  | newPage : Act
  | goto : String → Act
  | fill : Locator → String → Act
  | click : Locator → Act
  | setInputFiles : Locator → String → Act
  | waitForUrl : String → Act
  | waitForSelector : Locator → Option Nat → Act
  | expectVisible : Locator → Option Nat → Act
  | screenshot : String → Act
  | elementScreenshot : Locator → String → Act
  | printMsg : String → Act
  | sleep : Nat → Act
  | closeContext : Act
  | closeBrowser : Act
deriving DecidableEq

/-- The control-flow skeleton shared by the five scripts: statements before
the `try` (browser launch, page creation), the `try` body, the optional
`except` handler, and the `finally` block.  A script with no `try` at all is
modelled with everything in `body` and the other fields empty. -/
structure Script where
  setup : List Act
  body : List Act
  onError : Option (List Act)
  finalActs : List Act

/-- An environment decides whether each attempted action succeeds. -/
abbrev Env : Type := Act → Bool

/-- Run a block of statements: execute in order, stop at the first failing
action.  Returns the list of actions actually attempted and whether the whole
block completed without raising. -/
def runSteps (env : Env) : List Act → List Act × Bool
  | [] => ([], true)
  | a :: rest =>
    if env a then
      let r := runSteps env rest
      (a :: r.1, r.2)
    else ([a], false)

/-- Outcome of one script run: the actions attempted, in order, and whether
an exception escaped the module (a Python process exits non-zero exactly when
that happens). -/
structure RunResult where
  trace : List Act
  raised : Bool
deriving DecidableEq

/-- Replay of Python's `try`/`except`/`finally` control flow over a script.
If a setup statement raises there is no `finally` yet, so nothing else runs.
If the body completes, `finally` runs.  If the body raises and there is an
`except` handler, the handler runs (swallowing the exception unless the
handler itself raises), then `finally`; with no handler, `finally` runs and
the exception escapes. -/
def runScript (env : Env) (s : Script) : RunResult :=
  let su := runSteps env s.setup
  if su.2 then
    let b := runSteps env s.body
    if b.2 then
      let f := runSteps env s.finalActs
      { trace := su.1 ++ b.1 ++ f.1, raised := !f.2 }
    else
      match s.onError with
      | some h =>
        let ht := runSteps env h
        let f := runSteps env s.finalActs
        { trace := su.1 ++ b.1 ++ ht.1 ++ f.1, raised := !ht.2 || !f.2 }
      | none =>
        let f := runSteps env s.finalActs
        { trace := su.1 ++ b.1 ++ f.1, raised := true }
  else
    { trace := su.1, raised := true }

/-- The exact insufficiency message asserted by `verify.py`. -/
def insufficiencyMsg : String :=
  "You need to add at least one of each: Bottom, Footwear."

/-- The exact rejection message waited for by `verify_invalid_image.py`. -/
def invalidImageMsg : String :=
  "AI could not detect a clothing item. Please try another image."

/-- `string.ascii_lowercase`. -/
def ascii_lowercase : List Char :=
  ['a', 'b', 'c', 'd', 'e', 'f', 'g', 'h', 'i', 'j', 'k', 'l', 'm',
   'n', 'o', 'p', 'q', 'r', 's', 't', 'u', 'v', 'w', 'x', 'y', 'z']

namespace Verify

/-- `random_string` from `verify.py`: joins `length` characters, each drawn
by `random.choice` from the lowercase letters; the draws are modelled by the
function `choice` giving the index chosen at each iteration. -/
def random_string (choice : Nat → Fin 26) (length : Nat) : String :=
  String.mk ((List.range length).map fun i => ascii_lowercase.getD (choice i).val 'a')

/-- The email built at the top of `main`: `f"user_{random_string()}@example.com"`. -/
def mkEmail (choice : Nat → Fin 26) : String :=
  "user_" ++ random_string choice 10 ++ "@example.com"

/-- `main` from `verify.py` (the "insufficient wardrobe" scenario),
parameterised by the randomly generated email.  `browser.launch` and
`new_page` happen before the `try`; the `finally` closes the browser;
there is no `except` handler. -/
def main (email : String) : Script :=
  { setup := [.launch, .newPage]
    body := [
      .goto "http://localhost:3000/auth/sign-up",
      .screenshot "jules-scratch/verification/signup-page.png",
      .fill (.label "Email") email,
      .fill (.label "Password") "password",
      .click (.role "button" "Sign Up"),
      .waitForUrl "http://localhost:3000/onboarding",
      .click (.role "button" "Get Started"),
      .waitForUrl "http://localhost:3000/wardrobe",
      .click (.role "button" "Add Item"),
      .setInputFiles (.css "input[type=\"file\"]") "src/app/wardrobe/placeholder.png",
      .click (.role "button" "Add Item"),
      .expectVisible (.text "Item added successfully") none,
      .goto "http://localhost:3000",
      .expectVisible (.text insufficiencyMsg) none,
      .screenshot "jules-scratch/verification/insufficient-items.png"]
    onError := none
    finalActs := [.closeBrowser] }

end Verify

namespace VerifyUpdate

/-- `run` from `verify_update.py`.  There is no `try`/`finally` at all:
`browser.close()` is simply the last statement, so it is modelled as the last
element of `body`. -/
def run : Script :=
  { setup := []
    body := [
      .launch,
      .newPage,
      .sleep 5,
      .goto "http://localhost:3000/wardrobe",
      .click (.css "button:has-text(\"Add Item\")"),
      .setInputFiles (.css "input[type=\"file\"]") "README.md",
      .click (.css "button:has-text(\"Add Item\")"),
      .click (.css "button:has-text(\"Edit\")"),
      .click (.css "button:has-text(\"Save Changes\")"),
      .screenshot "jules-scratch/verification/verification.png",
      .closeBrowser]
    onError := none
    finalActs := [] }

end VerifyUpdate

namespace VerifyInvalidImage

/-- `run` from `verify_invalid_image.py` (the "invalid image" scenario).
The `wait_for_selector` uses the quoted selector `text="..."`, an exact text
match, with no timeout argument (library default). -/
def run : Script :=
  { setup := [.launch, .newContext, .newPage]
    body := [
      .goto "http://localhost:3000/wardrobe",
      .click (.css "button:has-text(\"Add Item\")"),
      .setInputFiles (.css "input[type=\"file\"]") "tests/fixtures/wooden-plank.jpeg",
      .waitForSelector (.text invalidImageMsg) none,
      .screenshot "jules-scratch/verification/verification.png"]
    onError := none
    finalActs := [.closeContext, .closeBrowser] }

end VerifyInvalidImage

namespace VerifyFeedbackFeature

/-- `run_verification` from `verify_feedback_feature.py`.  The `except`
handler prints the error and takes an error screenshot; the `finally` closes
the browser. -/
def run_verification : Script :=
  { setup := [.launch, .newPage]
    body := [
      .goto "http://localhost:3000",
      .expectVisible (.css "div.bg-white.p-6.rounded-lg.shadow-md") (some 15000),
      .expectVisible
        (.sub (.css "div.bg-white.p-6.rounded-lg.shadow-md")
          (.role "heading" "Your Daily Outfit Pick")) none,
      .expectVisible (.role "button" "Like") none,
      .expectVisible (.role "button" "Dislike") none,
      .screenshot "jules-scratch/verification/feedback_feature.png",
      .printMsg "Screenshot taken successfully."]
    onError := some [
      .printMsg "An error occurred",
      .screenshot "jules-scratch/verification/error.png"]
    finalActs := [.closeBrowser] }

end VerifyFeedbackFeature

namespace VerifyVirtualTryOn

/-- `run_verification` from `verify_virtual_try_on.py`.  The heading wait
carries an explicit 10000 ms timeout; the button wait uses the library
default. -/
def run_verification : Script :=
  { setup := [.launch, .newPage]
    body := [
      .goto "http://localhost:3000",
      .expectVisible (.role "heading" "Virtual Try-On") (some 10000),
      .expectVisible (.role "button" "Generate Virtual Try-On") none,
      .elementScreenshot (.sub (.role "heading" "Virtual Try-On") (.xpath "./.."))
        "jules-scratch/verification/virtual_try_on_feature.png",
      .printMsg "Screenshot captured successfully."]
    onError := some [
      .printMsg "An error occurred during verification",
      .screenshot "jules-scratch/verification/error_screenshot.png"]
    finalActs := [.closeBrowser] }

end VerifyVirtualTryOn

/-- The handler block of a script (`[]` when the script has no `except`). -/
def errorActs (s : Script) : List Act := s.onError.getD []

/-- All statements of a script, in textual order. -/
def allActs (s : Script) : List Act :=
  s.setup ++ s.body ++ errorActs s ++ s.finalActs

/-- Is this action `browser.close()`? -/
def isBrowserClose : Act → Bool
  | .closeBrowser => true
  | _ => false

/-- Is this action a fixed `time.sleep` delay? -/
def isSleep : Act → Bool
  | .sleep _ => true
  | _ => false

/-- Is this action a screenshot capture (page- or element-scoped)? -/
def isScreenshotAct : Act → Bool
  | .screenshot _ => true
  | .elementScreenshot _ _ => true
  | _ => false

/-- Is this action a browser/context lifecycle operation (launching,
opening pages and contexts, closing them)? -/
def isLifecycle : Act → Bool
  | .launch => true
  | .newContext => true
  | .newPage => true
  | .closeContext => true
  | .closeBrowser => true
  | _ => false

/-- Is this action an upload (`set_input_files`)? -/
def isUpload : Act → Bool
  | .setInputFiles _ _ => true
  | _ => false

/-- Count the actions of a list satisfying `p`. -/
def countA (p : Act → Bool) : List Act → Nat
  | [] => 0
  | a :: rest => (if p a then 1 else 0) + countA p rest

/-- The statement immediately following `page.goto(url)` in a block. -/
def stepAfterGoto (url : String) : List Act → Option Act
  | [] => none
  | .goto u :: rest => if u = url then rest.head? else stepAfterGoto url rest
  | _ :: rest => stepAfterGoto url rest

/-- The statement immediately following the first upload in a block. -/
def stepAfterUpload : List Act → Option Act
  | [] => none
  | .setInputFiles _ _ :: rest => rest.head?
  | _ :: rest => stepAfterUpload rest

/-- The timeout passed to the visibility wait on the heading named `name`
(`none` when no such wait occurs; `some t` gives the timeout argument). -/
def headingWaitTimeout (name : String) : List Act → Option (Option Nat)
  | [] => none
  | .expectVisible (.role "heading" n) t :: rest =>
    if n = name then some t else headingWaitTimeout name rest
  | _ :: rest => headingWaitTimeout name rest

/-- The statement immediately following the visibility wait on the heading
named `name`. -/
def stepAfterHeadingWait (name : String) : List Act → Option Act
  | [] => none
  | .expectVisible (.role "heading" n) _ :: rest =>
    if n = name then rest.head? else stepAfterHeadingWait name rest
  | _ :: rest => stepAfterHeadingWait name rest

/-- Environment in which every action succeeds. -/
def envAll : Env := fun _ => true

/-- Environment in which every navigation fails and everything else
succeeds. -/
def envFailGoto : Env
  | .goto _ => false
  | _ => true

/-- Environment in which the visibility wait on the "Like" button fails and
everything else succeeds. -/
def envFailLike : Env
  | .expectVisible (.role "button" "Like") _ => false
  | _ => true

/-- Environment in which writing the final success screenshot of `verify.py`
fails and everything else succeeds. -/
def envFailFinalShot : Env
  | .screenshot p => !(p == "jules-scratch/verification/insufficient-items.png")
  | _ => true

/-- Environment in which writing the checkpoint screenshot of
`verify_feedback_feature.py` fails and everything else succeeds. -/
def envFailFeedbackShot : Env
  | .screenshot p => !(p == "jules-scratch/verification/feedback_feature.png")
  | _ => true

/-- Environment in which writing the checkpoint screenshot shared by
`verify_invalid_image.py` and `verify_update.py` fails and everything else
succeeds. -/
def envFailVerificationShot : Env
  | .screenshot p => !(p == "jules-scratch/verification/verification.png")
  | _ => true

/-- Environment in which writing the element-scoped checkpoint screenshot of
`verify_virtual_try_on.py` fails and everything else succeeds. -/
def envFailTryOnShot : Env
  | .elementScreenshot _ p => !(p == "jules-scratch/verification/virtual_try_on_feature.png")
  | _ => true

/-- A sample concrete email of the shape `main` receives. -/
def sampleEmail : String := "user_abcdefghij@example.com"

/-- What `create_placeholder_image` in `create_image.py` hands to the `png`
library: the `png.Writer(width, height, greyscale=False)` arguments, the rows
of pixel values, and the destination filename opened for writing. -/
structure PNGWrite where
  width : Nat
  height : Nat
  greyscale : Bool
  rows : List (List Nat)
  filename : String
deriving DecidableEq

/-- The inner loop of `create_placeholder_image`: starting from `row = []`,
`row.extend(color)` is executed `width` times. -/
def buildRow (width : Nat) (color : List Nat) : List Nat :=
  (List.range width).foldl (fun row _ => row ++ color) []

/-- The outer loop of `create_placeholder_image`: starting from `img = []`,
`img.append(row)` is executed `height` times. -/
def buildImage (width height : Nat) (color : List Nat) : List (List Nat) :=
  (List.range height).foldl (fun img _ => img ++ [buildRow width color]) []

/-- `create_placeholder_image` from `create_image.py`: builds the pixel rows
and writes them as a non-greyscale PNG of the given dimensions to `filename`.
The function reads nothing but its four arguments. -/
def create_placeholder_image (width height : Nat) (color : List Nat)
    (filename : String) : PNGWrite :=
  { width := width
    height := height
    greyscale := false
    rows := buildImage width height color
    filename := filename }

/-- Running a block succeeds exactly when every action in it succeeds. -/
theorem runSteps_snd_eq_all (env : Env) (l : List Act) :
    (runSteps env l).2 = l.all env := by
  induction l with
  | nil => rfl
  | cons a rest ih =>
    by_cases h : env a = true
    · simp [runSteps, h, ih]
    · simp [runSteps, h]

/-- When every action of a block succeeds, the block runs in full. -/
theorem runSteps_all_ok (env : Env) (l : List Act) (h : l.all env = true) :
    runSteps env l = (l, true) := by
  induction l with
  | nil => rfl
  | cons a rest ih =>
    simp only [List.all_cons, Bool.and_eq_true] at h
    simp [runSteps, h.1, ih h.2]

/-- A block whose first part fully succeeds continues into its second part. -/
theorem runSteps_append_ok (env : Env) (l₁ l₂ : List Act) (h : l₁.all env = true) :
    runSteps env (l₁ ++ l₂) = (l₁ ++ (runSteps env l₂).1, (runSteps env l₂).2) := by
  induction l₁ with
  | nil => simp
  | cons a rest ih =>
    simp only [List.all_cons, Bool.and_eq_true] at h
    simp [runSteps, h.1, ih h.2]

/-- Strict sequential execution: when the actions before `a` succeed and `a`
fails, the run attempts exactly the prefix up to `a` and raises — none of the
later actions execute. -/
theorem runSteps_fail_at (env : Env) (l₁ l₂ : List Act) (a : Act)
    (h₁ : l₁.all env = true) (ha : env a = false) :
    runSteps env (l₁ ++ a :: l₂) = (l₁ ++ [a], false) := by
  rw [runSteps_append_ok env l₁ (a :: l₂) h₁]
  simp [runSteps, ha]

theorem countA_append (p : Act → Bool) (l₁ l₂ : List Act) :
    countA p (l₁ ++ l₂) = countA p l₁ + countA p l₂ := by
  induction l₁ with
  | nil => simp [countA]
  | cons a rest ih => simp [countA, ih]; omega

/-- The attempted prefix of a block contains no more `p`-actions than the
block itself. -/
theorem countA_runSteps_le (env : Env) (p : Act → Bool) (l : List Act) :
    countA p (runSteps env l).1 ≤ countA p l := by
  induction l with
  | nil => simp [runSteps]
  | cons a rest ih =>
    by_cases h : env a = true
    · simp only [runSteps, h, if_true, countA]
      exact Nat.add_le_add_left ih _
    · simp only [runSteps, h, if_false, Bool.false_eq_true, countA]
      exact Nat.add_le_add_left (Nat.zero_le _) _

/-- A script whose only `browser.close()` statements sit in its `finally`
block (exactly one there), and whose setup and `finally` actions succeed,
attempts that close exactly once — on every exit path of the body. -/
theorem closeOnce (env : Env) (s : Script)
    (h0 : countA isBrowserClose s.setup = 0)
    (h1 : countA isBrowserClose s.body = 0)
    (h2 : countA isBrowserClose (errorActs s) = 0)
    (h3 : countA isBrowserClose s.finalActs = 1)
    (hsu : s.setup.all env = true)
    (hfi : s.finalActs.all env = true) :
    countA isBrowserClose (runScript env s).trace = 1 := by
  have hsu' := runSteps_all_ok env s.setup hsu
  have hfi' := runSteps_all_ok env s.finalActs hfi
  have hb0 : countA isBrowserClose (runSteps env s.body).1 = 0 :=
    Nat.le_zero.mp (h1 ▸ countA_runSteps_le env isBrowserClose s.body)
  cases hb2 : (runSteps env s.body).2 with
  | true => simp [runScript, hsu', hfi', hb2, countA_append, h0, hb0, h3]
  | false =>
    cases hE : s.onError with
    | none => simp [runScript, hsu', hfi', hb2, hE, countA_append, h0, hb0, h3]
    | some hdl =>
      have hh : countA isBrowserClose hdl = 0 := by
        have he : errorActs s = hdl := by simp [errorActs, hE]
        rw [← he]; exact h2
      have hh0 : countA isBrowserClose (runSteps env hdl).1 = 0 :=
        Nat.le_zero.mp (hh ▸ countA_runSteps_le env isBrowserClose hdl)
      simp [runScript, hsu', hfi', hb2, hE, countA_append, h0, hb0, hh0, h3]

/-- With no `except` handler, a body failure escapes the module. -/
theorem raised_noHandler (env : Env) (s : Script) (hE : s.onError = none)
    (hsu : (runSteps env s.setup).2 = true)
    (hb : (runSteps env s.body).2 = false) :
    (runScript env s).raised = true := by
  simp [runScript, hsu, hb, hE]

/-- With an `except` handler whose statements succeed (and a succeeding
`finally`), no exception escapes the module, whatever the body did. -/
theorem raised_false_of_handler (env : Env) (s : Script) (hdl : List Act)
    (hE : s.onError = some hdl)
    (hsu : (runSteps env s.setup).2 = true)
    (hh : hdl.all env = true)
    (hfi : s.finalActs.all env = true) :
    (runScript env s).raised = false := by
  have hh' := runSteps_all_ok env hdl hh
  have hfi' := runSteps_all_ok env s.finalActs hfi
  cases hb : (runSteps env s.body).2 with
  | true => simp [runScript, hsu, hb, hfi']
  | false => simp [runScript, hsu, hb, hE, hh', hfi']

/-- Two scripts with the same setup, handler and `finally` blocks, whose
bodies succeed or fail together under `env`, raise together. -/
theorem raised_congr (env : Env) (s₁ s₂ : Script)
    (hsu : s₁.setup = s₂.setup)
    (hb : (runSteps env s₁.body).2 = (runSteps env s₂.body).2)
    (hE : s₁.onError = s₂.onError)
    (hf : s₁.finalActs = s₂.finalActs) :
    (runScript env s₁).raised = (runScript env s₂).raised := by
  simp only [runScript, hsu, hE, hf]
  rw [hb]
  cases h : (runSteps env s₂.setup).2
  · rfl
  · cases hb2 : (runSteps env s₂.body).2
    · cases s₂.onError <;> rfl
    · rfl

/-- The inner loop builds the colour sequence repeated `width` times. -/
theorem buildRow_eq (w : Nat) (c : List Nat) :
    buildRow w c = (List.replicate w c).flatten := by
  induction w with
  | zero => rfl
  | succ n ih =>
    rw [buildRow, List.range_succ, List.foldl_append]
    show buildRow n c ++ c = _
    rw [ih, List.replicate_succ', List.flatten_append]
    simp

/-- The outer loop builds `height` copies of the same row. -/
theorem buildImage_eq (w h : Nat) (c : List Nat) :
    buildImage w h c = List.replicate h (buildRow w c) := by
  induction h with
  | zero => rfl
  | succ n ih =>
    rw [buildImage, List.range_succ, List.foldl_append]
    show buildImage w n c ++ [buildRow w c] = _
    rw [ih, List.replicate_succ']

theorem flatten_replicate_length (w : Nat) (c : List Nat) :
    ((List.replicate w c).flatten).length = w * c.length := by
  induction w with
  | zero => simp
  | succ n ih =>
    rw [List.replicate_succ, List.flatten_cons, List.length_append, ih]
    ring

/-- Every aligned window of length `c.length` inside the `w`-fold repetition
of `c` is `c` itself: pixel `i` of a built row is the colour. -/
theorem flatten_replicate_pixel (c : List Nat) :
    ∀ (w i : Nat), i < w →
      (((List.replicate w c).flatten.drop (c.length * i)).take c.length) = c := by
  intro w
  induction w with
  | zero => intro i hi; exact absurd hi (Nat.not_lt_zero i)
  | succ n ih =>
    intro i hi
    rw [List.replicate_succ, List.flatten_cons]
    cases i with
    | zero => rw [Nat.mul_zero, List.drop_zero, List.take_left]
    | succ j =>
      have hm : c.length * (j + 1) = c.length + c.length * j := by ring
      rw [hm, List.drop_append]
      exact ih j (Nat.lt_of_succ_lt_succ hi)

/-- C10: for every non-negative width and height and every RGB colour triple,
`create_placeholder_image` constructs exactly `height` rows, each row the
`color` sequence repeated `width` times (so `width * 3` values per row, and
the aligned 3-value window at every pixel index below `width` is the colour),
and hands them to the PNG writer as a non-greyscale image of the given
dimensions destined for the given filename.  The function is pure: the
`PNGWrite` it produces is a function of its four arguments alone. -/
theorem C10_create_placeholder_image : ∀ (w h r g b : Nat) (fn : String),
    (create_placeholder_image w h [r, g, b] fn).rows.length = h
    ∧ (∀ row ∈ (create_placeholder_image w h [r, g, b] fn).rows,
        row = (List.replicate w [r, g, b]).flatten
        ∧ row.length = w * 3
        ∧ ∀ i, i < w → (row.drop (3 * i)).take 3 = [r, g, b])
    ∧ (create_placeholder_image w h [r, g, b] fn).greyscale = false
    ∧ (create_placeholder_image w h [r, g, b] fn).filename = fn
    ∧ (create_placeholder_image w h [r, g, b] fn).width = w
    ∧ (create_placeholder_image w h [r, g, b] fn).height = h := by
  intro w h r g b fn
  refine ⟨?_, ?_, rfl, rfl, rfl, rfl⟩
  · show (buildImage w h [r, g, b]).length = h
    rw [buildImage_eq, List.length_replicate]
  · intro row hrow
    have hrow' : row ∈ List.replicate h (buildRow w [r, g, b]) := by
      rw [← buildImage_eq]; exact hrow
    have heq : row = buildRow w [r, g, b] := List.eq_of_mem_replicate hrow'
    subst heq
    rw [buildRow_eq]
    refine ⟨rfl, ?_, ?_⟩
    · rw [flatten_replicate_length]; rfl
    · intro i hi
      have hp := flatten_replicate_pixel [r, g, b] w i hi
      simpa using hp

/-- Witness for C10 at width 2, height 1, colour (9, 8, 7). -/
theorem C10_witness :
    (create_placeholder_image 2 1 [9, 8, 7] "p.png").rows.length = 1
    ∧ (((List.replicate 2 [9, 8, 7]).flatten.drop (3 * 1)).take 3) = [9, 8, 7] := by
  refine ⟨(C10_create_placeholder_image 2 1 9 8 7 "p.png").1, ?_⟩
  have h := ((C10_create_placeholder_image 2 1 9 8 7 "p.png").2.1
    ((List.replicate 2 [9, 8, 7]).flatten) (by decide)).2.2 1 (by decide)
  exact h

/-- C1 (amended): for the sign-up, invalid-image, feedback and virtual-try-on
scenarios — whose `browser.close()` sits in a `finally` block — the close is
attempted exactly once on every exit path of the scenario body (pass,
assertion failure, or mid-step error), provided the browser lifecycle
operations themselves succeed.  The update scenario (`verify_update.py`) has
no `try`/`finally`: its close runs exactly once only when every one of its
steps succeeds.  The original claim, that every scenario tears down on every
exit path, fails on `verify_update.py` (see the counterexample). -/
theorem C1_teardown_amended : ∀ (env : Env) (email : String),
    (∀ a, isLifecycle a = true → env a = true) →
    countA isBrowserClose (runScript env (Verify.main email)).trace = 1
    ∧ countA isBrowserClose (runScript env VerifyInvalidImage.run).trace = 1
    ∧ countA isBrowserClose (runScript env VerifyFeedbackFeature.run_verification).trace = 1
    ∧ countA isBrowserClose (runScript env VerifyVirtualTryOn.run_verification).trace = 1
    ∧ (VerifyUpdate.run.body.all env = true →
        countA isBrowserClose (runScript env VerifyUpdate.run).trace = 1) := by
  intro env email henv
  refine ⟨?_, ?_, ?_, ?_, ?_⟩
  · refine closeOnce env _ rfl rfl rfl rfl ?_ ?_
    · show ([Act.launch, Act.newPage]).all env = true
      simp only [List.all_cons, List.all_nil, Bool.and_eq_true, Bool.and_true]
      exact ⟨henv Act.launch rfl, henv Act.newPage rfl⟩
    · show ([Act.closeBrowser]).all env = true
      simp only [List.all_cons, List.all_nil, Bool.and_eq_true, Bool.and_true]
      exact henv Act.closeBrowser rfl
  · refine closeOnce env _ rfl rfl rfl rfl ?_ ?_
    · show ([Act.launch, Act.newContext, Act.newPage]).all env = true
      simp only [List.all_cons, List.all_nil, Bool.and_eq_true, Bool.and_true]
      exact ⟨henv Act.launch rfl, henv Act.newContext rfl, henv Act.newPage rfl⟩
    · show ([Act.closeContext, Act.closeBrowser]).all env = true
      simp only [List.all_cons, List.all_nil, Bool.and_eq_true, Bool.and_true]
      exact ⟨henv Act.closeContext rfl, henv Act.closeBrowser rfl⟩
  · refine closeOnce env _ rfl rfl rfl rfl ?_ ?_
    · show ([Act.launch, Act.newPage]).all env = true
      simp only [List.all_cons, List.all_nil, Bool.and_eq_true, Bool.and_true]
      exact ⟨henv Act.launch rfl, henv Act.newPage rfl⟩
    · show ([Act.closeBrowser]).all env = true
      simp only [List.all_cons, List.all_nil, Bool.and_eq_true, Bool.and_true]
      exact henv Act.closeBrowser rfl
  · refine closeOnce env _ rfl rfl rfl rfl ?_ ?_
    · show ([Act.launch, Act.newPage]).all env = true
      simp only [List.all_cons, List.all_nil, Bool.and_eq_true, Bool.and_true]
      exact ⟨henv Act.launch rfl, henv Act.newPage rfl⟩
    · show ([Act.closeBrowser]).all env = true
      simp only [List.all_cons, List.all_nil, Bool.and_eq_true, Bool.and_true]
      exact henv Act.closeBrowser rfl
  · intro hall
    have hb := runSteps_all_ok env VerifyUpdate.run.body hall
    have hsu : runSteps env VerifyUpdate.run.setup = ([], true) := rfl
    have hfi : runSteps env VerifyUpdate.run.finalActs = ([], true) := rfl
    simp [runScript, hsu, hfi, hb]
    decide

/-- C1 counterexample: in a run of `verify_update.py` where the navigation
step fails (every lifecycle operation succeeding), the scenario raises and
`browser.close()` is never attempted — the browser session is not torn down
on that exit path. -/
theorem C1_counterexample :
    (runScript envFailGoto VerifyUpdate.run).raised = true
    ∧ countA isBrowserClose (runScript envFailGoto VerifyUpdate.run).trace = 0 := by
  decide

/-- Witness for C1 at a concrete environment and email. -/
theorem C1_witness :
    countA isBrowserClose (runScript envAll (Verify.main sampleEmail)).trace = 1 :=
  (C1_teardown_amended envAll sampleEmail (fun _ _ => rfl)).1

/-- C2 (amended): steps execute strictly sequentially — whenever the actions
before `a` succeed and `a` fails, the run attempts exactly the prefix ending
at `a` and the block fails, so no later step of the scenario executes.  An
error screenshot before teardown is captured only by the feedback and
virtual-try-on scenarios (their `except` handlers); the sign-up, invalid-image
and update scenarios have no handler and capture nothing on failure (see the
counterexample).  The final conjunct exhibits a failing feedback run whose
trace takes the error screenshot before `browser.close()`. -/
theorem C2_abort_amended :
    (∀ (env : Env) (l₁ l₂ : List Act) (a : Act),
      l₁.all env = true → env a = false →
      runSteps env (l₁ ++ a :: l₂) = (l₁ ++ [a], false))
    ∧ Act.screenshot "jules-scratch/verification/error.png" ∈
        errorActs VerifyFeedbackFeature.run_verification
    ∧ Act.screenshot "jules-scratch/verification/error_screenshot.png" ∈
        errorActs VerifyVirtualTryOn.run_verification
    ∧ (∀ email, errorActs (Verify.main email) = [])
    ∧ errorActs VerifyInvalidImage.run = []
    ∧ errorActs VerifyUpdate.run = []
    ∧ (runScript envFailLike VerifyFeedbackFeature.run_verification).trace =
        [Act.launch, Act.newPage,
         Act.goto "http://localhost:3000",
         Act.expectVisible (.css "div.bg-white.p-6.rounded-lg.shadow-md") (some 15000),
         Act.expectVisible
           (.sub (.css "div.bg-white.p-6.rounded-lg.shadow-md")
             (.role "heading" "Your Daily Outfit Pick")) none,
         Act.expectVisible (.role "button" "Like") none,
         Act.printMsg "An error occurred",
         Act.screenshot "jules-scratch/verification/error.png",
         Act.closeBrowser] := by
  refine ⟨?_, by decide, by decide, fun email => rfl, rfl, rfl, by decide⟩
  intro env l₁ l₂ a h ha
  exact runSteps_fail_at env l₁ l₂ a h ha

/-- C2 counterexample: a run of `verify.py` whose first navigation fails is
marked failed, but its trace contains no screenshot at all — no error
screenshot is captured before teardown, contradicting the claim that every
scenario captures one. -/
theorem C2_counterexample :
    (runScript envFailGoto (Verify.main sampleEmail)).raised = true
    ∧ countA isScreenshotAct (runScript envFailGoto (Verify.main sampleEmail)).trace = 0 := by
  decide

/-- Witness for C2 at a concrete block and failing action. -/
theorem C2_witness :
    runSteps envFailGoto ([Act.launch] ++ Act.goto "http://localhost:3000" :: [Act.newPage]) =
      ([Act.launch, Act.goto "http://localhost:3000"], false) :=
  C2_abort_amended.1 envFailGoto [Act.launch] [Act.newPage]
    (Act.goto "http://localhost:3000") (by decide) (by decide)

/-- C3 (amended): the sign-up, invalid-image and update scenarios propagate
any step failure out of the module, so their process exit status is non-zero
on failure.  The feedback and virtual-try-on scenarios instead catch every
exception from the body in a generic handler: when the handler's own
statements and the `finally` succeed, no exception escapes and the process
exits zero even though a step failed (see the counterexample) — for those two
scripts the failure is reported only on standard output. -/
theorem C3_exit_amended : ∀ (env : Env) (email : String),
    ((runSteps env (Verify.main email).setup).2 = true →
      (runSteps env (Verify.main email).body).2 = false →
      (runScript env (Verify.main email)).raised = true)
    ∧ ((runSteps env VerifyInvalidImage.run.setup).2 = true →
      (runSteps env VerifyInvalidImage.run.body).2 = false →
      (runScript env VerifyInvalidImage.run).raised = true)
    ∧ ((runSteps env VerifyUpdate.run.body).2 = false →
      (runScript env VerifyUpdate.run).raised = true)
    ∧ ((runSteps env VerifyFeedbackFeature.run_verification.setup).2 = true →
      (errorActs VerifyFeedbackFeature.run_verification).all env = true →
      VerifyFeedbackFeature.run_verification.finalActs.all env = true →
      (runScript env VerifyFeedbackFeature.run_verification).raised = false)
    ∧ ((runSteps env VerifyVirtualTryOn.run_verification.setup).2 = true →
      (errorActs VerifyVirtualTryOn.run_verification).all env = true →
      VerifyVirtualTryOn.run_verification.finalActs.all env = true →
      (runScript env VerifyVirtualTryOn.run_verification).raised = false) := by
  intro env email
  refine ⟨?_, ?_, ?_, ?_, ?_⟩
  · exact fun hsu hb => raised_noHandler env _ rfl hsu hb
  · exact fun hsu hb => raised_noHandler env _ rfl hsu hb
  · exact fun hb => raised_noHandler env _ rfl rfl hb
  · exact fun hsu hh hfi => raised_false_of_handler env _ _ rfl hsu hh hfi
  · exact fun hsu hh hfi => raised_false_of_handler env _ _ rfl hsu hh hfi

/-- C3 counterexample: in a run of `verify_feedback_feature.py` where the
"Like" button never becomes visible, a step fails, yet no exception escapes —
the process exits zero, silently swallowing the failure at the exit-status
level. -/
theorem C3_counterexample :
    (runSteps envFailLike VerifyFeedbackFeature.run_verification.body).2 = false
    ∧ (runScript envFailLike VerifyFeedbackFeature.run_verification).raised = false := by
  decide

/-- Witness for C3 at a concrete environment and email. -/
theorem C3_witness :
    (runScript envFailGoto (Verify.main sampleEmail)).raised = true :=
  (C3_exit_amended envFailGoto sampleEmail).1 (by decide) (by decide)

/-- C4: in the "insufficient wardrobe" scenario (`verify.py`, run from a
fresh account — the email is freshly generated, and the category of the
single uploaded item is decided by the application), the body performs
exactly one item upload, and the step immediately after navigating to the
homepage is the visibility assertion on exactly the string
`You need to add at least one of each: Bottom, Footwear.`; any passing run
certifies that the environment made exactly that text visible (and the
`Item added successfully` confirmation before it). -/
theorem C4_insufficient_wardrobe : ∀ (env : Env) (email : String),
    (countA isUpload (Verify.main email).body = 1
    ∧ stepAfterGoto "http://localhost:3000" (Verify.main email).body =
        some (Act.expectVisible (.text insufficiencyMsg) none))
    ∧ ((runSteps env (Verify.main email).body).2 = true →
      env (Act.expectVisible (.text insufficiencyMsg) none) = true
      ∧ env (Act.expectVisible (.text "Item added successfully") none) = true) := by
  intro env email
  refine ⟨⟨rfl, ?_⟩, ?_⟩
  · show stepAfterGoto "http://localhost:3000" (Verify.main email).body = _
    simp [Verify.main, stepAfterGoto]
  · intro h
    rw [runSteps_snd_eq_all] at h
    simp only [Verify.main, List.all_cons, List.all_nil, Bool.and_eq_true,
      Bool.and_true] at h
    exact ⟨h.2.2.2.2.2.2.2.2.2.2.2.2.2.1, h.2.2.2.2.2.2.2.2.2.2.2.1⟩

/-- Witness for C4 at a concrete environment and email. -/
theorem C4_witness :
    countA isUpload (Verify.main sampleEmail).body = 1
    ∧ envAll (Act.expectVisible (.text insufficiencyMsg) none) = true := by
  have h := C4_insufficient_wardrobe envAll sampleEmail
  exact ⟨h.1.1, (h.2 (by decide)).1⟩

/-- C5 (amended): a failure while writing a screenshot artifact is treated
like any other step failure, so in every script it changes the reported
outcome of an otherwise-passing run.  In the three scripts without an
`except` handler — `verify.py`, `verify_invalid_image.py` and
`verify_update.py` — the capture failure makes the run raise (non-zero exit)
where the same run with the write succeeding passes.  In
`verify_feedback_feature.py` and `verify_virtual_try_on.py` the generic
handler catches the capture failure, takes the error path (the error message
is printed and the error screenshot attempted, instead of the success
message), and the process exits zero both ways.  No script confines capture
failure to a logged warning while leaving the run's reported outcome
unchanged. -/
theorem C5_capture_amended :
    ((runScript envAll (Verify.main sampleEmail)).raised = false
    ∧ (runSteps envFailFinalShot (Verify.main sampleEmail).body).2 = false
    ∧ (runScript envFailFinalShot (Verify.main sampleEmail)).raised = true)
    ∧ ((runScript envAll VerifyInvalidImage.run).raised = false
    ∧ (runSteps envFailVerificationShot VerifyInvalidImage.run.body).2 = false
    ∧ (runScript envFailVerificationShot VerifyInvalidImage.run).raised = true)
    ∧ ((runScript envAll VerifyUpdate.run).raised = false
    ∧ (runSteps envFailVerificationShot VerifyUpdate.run.body).2 = false
    ∧ (runScript envFailVerificationShot VerifyUpdate.run).raised = true)
    ∧ ((runScript envAll VerifyFeedbackFeature.run_verification).raised = false
    ∧ (runSteps envFailFeedbackShot VerifyFeedbackFeature.run_verification.body).2 = false
    ∧ (runScript envFailFeedbackShot VerifyFeedbackFeature.run_verification).raised = false
    ∧ Act.screenshot "jules-scratch/verification/error.png" ∈
        (runScript envFailFeedbackShot VerifyFeedbackFeature.run_verification).trace
    ∧ Act.printMsg "An error occurred" ∈
        (runScript envFailFeedbackShot VerifyFeedbackFeature.run_verification).trace
    ∧ Act.printMsg "Screenshot taken successfully." ∉
        (runScript envFailFeedbackShot VerifyFeedbackFeature.run_verification).trace)
    ∧ ((runScript envAll VerifyVirtualTryOn.run_verification).raised = false
    ∧ (runSteps envFailTryOnShot VerifyVirtualTryOn.run_verification.body).2 = false
    ∧ (runScript envFailTryOnShot VerifyVirtualTryOn.run_verification).raised = false
    ∧ Act.screenshot "jules-scratch/verification/error_screenshot.png" ∈
        (runScript envFailTryOnShot VerifyVirtualTryOn.run_verification).trace
    ∧ Act.printMsg "An error occurred during verification" ∈
        (runScript envFailTryOnShot VerifyVirtualTryOn.run_verification).trace
    ∧ Act.printMsg "Screenshot captured successfully." ∉
        (runScript envFailTryOnShot VerifyVirtualTryOn.run_verification).trace) := by
  decide

/-- C5 counterexample: two runs of `verify.py` identical except that the
second fails to write the final screenshot: the first passes, the second
raises.  Artifact-capture failure changes the reported outcome. -/
theorem C5_counterexample :
    (runScript envAll (Verify.main sampleEmail)).raised = false
    ∧ (runScript envFailFinalShot (Verify.main sampleEmail)).raised = true := by
  decide

/-- C6: the "invalid image" scenario (`verify_invalid_image.py`) uploads the
non-clothing fixture `tests/fixtures/wooden-plank.jpeg` and, as the very next
step, waits (exact text match, library-default timeout) for exactly the
string `AI could not detect a clothing item. Please try another image.`; any
passing run certifies the environment surfaced that text within the wait. -/
theorem C6_invalid_image : ∀ env : Env,
    (stepAfterUpload VerifyInvalidImage.run.body =
        some (Act.waitForSelector (.text invalidImageMsg) none)
    ∧ Act.setInputFiles (.css "input[type=\"file\"]") "tests/fixtures/wooden-plank.jpeg"
        ∈ VerifyInvalidImage.run.body)
    ∧ ((runSteps env VerifyInvalidImage.run.body).2 = true →
      env (Act.waitForSelector (.text invalidImageMsg) none) = true) := by
  intro env
  refine ⟨⟨by decide, by decide⟩, ?_⟩
  intro h
  rw [runSteps_snd_eq_all] at h
  simp only [VerifyInvalidImage.run, List.all_cons, List.all_nil, Bool.and_eq_true,
    Bool.and_true] at h
  exact h.2.2.2.1

/-- Witness for C6 at a concrete environment. -/
theorem C6_witness :
    envAll (Act.waitForSelector (.text invalidImageMsg) none) = true :=
  (C6_invalid_image envAll).2 (by decide)

/-- C7: the "virtual try-on" scenario (`verify_virtual_try_on.py`) waits for
the heading `Virtual Try-On` with an explicit 10000 ms (10 s) timeout, and
the very next step waits for the button `Generate Virtual Try-On`
(library-default timeout); any passing run certifies both became visible
within their waits. -/
theorem C7_virtual_try_on : ∀ env : Env,
    (headingWaitTimeout "Virtual Try-On" VerifyVirtualTryOn.run_verification.body =
        some (some 10000)
    ∧ stepAfterHeadingWait "Virtual Try-On" VerifyVirtualTryOn.run_verification.body =
        some (Act.expectVisible (.role "button" "Generate Virtual Try-On") none))
    ∧ ((runSteps env VerifyVirtualTryOn.run_verification.body).2 = true →
      env (Act.expectVisible (.role "heading" "Virtual Try-On") (some 10000)) = true
      ∧ env (Act.expectVisible (.role "button" "Generate Virtual Try-On") none) = true) := by
  intro env
  refine ⟨⟨by decide, by decide⟩, ?_⟩
  intro h
  rw [runSteps_snd_eq_all] at h
  simp only [VerifyVirtualTryOn.run_verification, List.all_cons, List.all_nil,
    Bool.and_eq_true, Bool.and_true] at h
  exact ⟨h.2.1, h.2.2.1⟩

/-- Witness for C7 at a concrete environment. -/
theorem C7_witness :
    envAll (Act.expectVisible (.role "heading" "Virtual Try-On") (some 10000)) = true :=
  ((C7_virtual_try_on envAll).2 (by decide)).1

/-- C8 (amended): of the five scenarios, only `verify_update.py` uses a fixed
sleep delay — its body starts with `time.sleep(5)` (see the counterexample);
the other four contain no sleep anywhere (setup, body, handler or `finally`),
their waits being condition-polling waits (`wait_for_url`,
`wait_for_selector`, visibility expectations) bounded by an explicit or
library-default timeout. -/
theorem C8_no_sleep_amended :
    Act.sleep 5 ∈ allActs VerifyUpdate.run
    ∧ countA isSleep (allActs VerifyUpdate.run) = 1
    ∧ (∀ email, countA isSleep (allActs (Verify.main email)) = 0)
    ∧ countA isSleep (allActs VerifyInvalidImage.run) = 0
    ∧ countA isSleep (allActs VerifyFeedbackFeature.run_verification) = 0
    ∧ countA isSleep (allActs VerifyVirtualTryOn.run_verification) = 0 := by
  refine ⟨by decide, by decide, fun email => ?_, by decide, by decide, by decide⟩
  simp [allActs, errorActs, Verify.main, countA_append, countA, isSleep]

/-- C8 counterexample: the update scenario's body contains the fixed
5-second sleep `time.sleep(5)`, contradicting the claim that no scenario
uses a fixed sleep delay. -/
theorem C8_counterexample :
    Act.sleep 5 ∈ VerifyUpdate.run.body ∧ isSleep (Act.sleep 5) = true := by
  decide

/-- Witness for C8 at a concrete email. -/
theorem C8_witness :
    countA isSleep (allActs (Verify.main sampleEmail)) = 0 :=
  C8_no_sleep_amended.2.2.1 sampleEmail

/-- C9: two runs of the "insufficient wardrobe" scenario under the same
fresh application state (the same environment), differing only in the random
draws behind their generated emails, raise identically — the pass/fail
outcome is deterministic apart from the external application state, provided
that state treats the two fresh emails alike (the environment's verdict on
the email-fill step does not depend on the value filled). -/
theorem C9_determinism : ∀ (env : Env) (c₁ c₂ : Nat → Fin 26),
    (∀ v₁ v₂ : String,
      env (Act.fill (.label "Email") v₁) = env (Act.fill (.label "Email") v₂)) →
    (runScript env (Verify.main (Verify.mkEmail c₁))).raised =
      (runScript env (Verify.main (Verify.mkEmail c₂))).raised := by
  intro env c₁ c₂ h
  refine raised_congr env _ _ rfl ?_ rfl rfl
  rw [runSteps_snd_eq_all, runSteps_snd_eq_all]
  simp only [Verify.main, List.all_cons, List.all_nil]
  rw [h (Verify.mkEmail c₁) (Verify.mkEmail c₂)]

/-- Witness for C9 at concrete draws. -/
theorem C9_witness :
    (runScript envAll (Verify.main (Verify.mkEmail fun _ => (0 : Fin 26)))).raised =
      (runScript envAll (Verify.main (Verify.mkEmail fun _ => (1 : Fin 26)))).raised :=
  C9_determinism envAll (fun _ => 0) (fun _ => 1) (fun _ _ => rfl)
